import Mathlib

/-!
Shallow embedding of the StreamAlert rule-processor orchestration core
(src/stream_alert/rule_processor/handler.py).

The handler module orchestrates: per-record source classification, dispatch
to a per-source extractor, per-data-unit classification and rule evaluation,
batch-scoped alert accumulation, and an environment-dependent delivery
decision.  Its collaborators (config loader, classifier, pre-parsers, rules
engine, sink) live in modules that are external to the shown source; they
are modelled as oracle functions gathered in a `Collab` structure, so every
theorem quantifies over all collaborator behaviours.

Raw records, data units and alerts are opaque to the handler; they are
modelled as strings.  Logging and sink calls are modelled as an effect
trace: each logging statement in handler.py has its own `Effect`
constructor carrying the data the format string would render.
-/

namespace StreamAlertModel

/-- Environment descriptor returned by load_env; handler.py reads only the
lambda_alias field (the deployment-stage discriminator). -/
structure Env where
  lambda_alias : String
deriving DecidableEq, Repr

/-- Modelled from the spec: the Payload data entity (class StreamPayload of
the classifier module, which is not under src/).  Attributes per the spec
data model: raw record, service identifier, valid-source flag, valid flag,
and the extracted data unit currently held by the payload. -/
structure Payload where
  raw_record : String
  service : String
  valid_source : Bool
  valid : Bool
  record_data : Option String
deriving DecidableEq, Repr

/-- Modelled from the spec: Payload construction at dispatch time
(StreamPayload built from a raw record; classification flags are unset
until the Classification Gate and classification run, so they start
false, and no data unit is attached yet). -/
def payload0 (raw : String) : Payload :=
  { raw_record := raw, service := "", valid_source := false, valid := false,
    record_data := none }

/-- Oracle bundle for the external collaborators of handler.py: the three
pre-parsers, the classifier (source mapping and record classification,
already closed over the loaded configuration), and the rule engine. -/
structure Collab where
  preParseKinesis : String → String
  preParseS3 : String → List String
  preParseSns : String → String
  mapSource : String → String × Bool
  classify : String → String → Bool
  rules : Payload → List String

/-- Effect trace entries: one constructor per logging statement of
handler.py plus the external sink call. -/
inductive Effect where
  | debugNumRecords (n : Nat)
  | infoUnsupportedService (service : String)
  | infoAlertsTriggered (n : Nat)
  | infoAlertsDump (alerts : List String)
  | debugNoAlerts
  | errorInvalidData (p : Payload) (raw : String)
  | sinkCall (alerts : List String) (env : Env)
deriving DecidableEq, Repr

/-- Modelled from the spec: classifier.map_source(payload) resolves the
source identifier of the raw record and sets payload.service and
payload.valid_source. -/
def map_source (c : Collab) (p : Payload) : Payload :=
  { p with service := (c.mapSource p.raw_record).1,
           valid_source := (c.mapSource p.raw_record).2 }

/-- Modelled from the spec: classifier.classify_record(payload, data) sets
payload.valid from classifying the current data unit. -/
def classify_record (c : Collab) (p : Payload) (data : String) : Payload :=
  { p with valid := c.classify p.service data }

/-- Modelled from the spec: payload.refresh_record(data) replaces the data
unit held by the same Payload instance; no other field is reset. -/
def refresh_record (p : Payload) (data : String) : Payload :=
  { p with record_data := some data }

/-- Embeds StreamAlert.process_alerts: classify the data unit; if valid,
run the rule engine and extend the accumulator with any returned alerts;
otherwise log an error carrying the payload and the raw record.  Returns
the updated payload, the updated accumulator and the emitted effects. -/
def process_alerts (c : Collab) (alerts : List String) (p : Payload)
    (data : String) : Payload × List String × List Effect :=
  let p2 := classify_record c p data
  if p2.valid then
    let new := c.rules p2
    if new ≠ [] then (p2, alerts ++ new, []) else (p2, alerts, [])
  else
    (p2, alerts, [Effect.errorInvalidData p2 p.raw_record])

/-- Embeds StreamAlert.kinesis_process: pre-parse the raw record into one
data unit and feed it to process_alerts once. -/
def kinesis_process (c : Collab) (alerts : List String) (p : Payload) :
    Payload × List String × List Effect :=
  process_alerts c alerts p (c.preParseKinesis p.raw_record)

/-- Embeds the Python str.rstrip() call of s3_process: drop trailing
whitespace characters from the line. -/
def rstrip (line : String) : String :=
  String.mk (List.reverse (List.dropWhile Char.isWhitespace
    (List.reverse line.data)))

/-- One iteration of the line loop in StreamAlert.s3_process: right-strip
the line, refresh the payload with the stripped data, run process_alerts. -/
def s3Step (c : Collab) (st : Payload × List String × List Effect)
    (line : String) : Payload × List String × List Effect :=
  let data := (rstrip line)
  let p := refresh_record st.1 data
  let r := process_alerts c st.2.1 p data
  (r.1, r.2.1, st.2.2 ++ r.2.2)

/-- Embeds StreamAlert.s3_process: pre-parse the raw record into lines and
run the line loop in file order. -/
def s3_process (c : Collab) (alerts : List String) (p : Payload) :
    Payload × List String × List Effect :=
  (c.preParseS3 p.raw_record).foldl (s3Step c) (p, alerts, [])

/-- Embeds StreamAlert.sns_process: pre-parse the raw record into one data
unit and feed it to process_alerts once. -/
def sns_process (c : Collab) (alerts : List String) (p : Payload) :
    Payload × List String × List Effect :=
  process_alerts c alerts p (c.preParseSns p.raw_record)

/-- Embeds StreamAlert.send_alerts: with a non-empty accumulator, either
log the count and a dump of the alerts (development alias) or hand the
whole accumulator and the environment to the sink; with an empty
accumulator, emit a debug trace only when the last payload was valid. -/
def send_alerts (env : Env) (alerts : List String) (p : Payload) :
    List Effect :=
  if alerts ≠ [] then
    if env.lambda_alias = "development" then
      [Effect.infoAlertsTriggered alerts.length, Effect.infoAlertsDump alerts]
    else
      [Effect.sinkCall alerts env]
  else if p.valid then [Effect.debugNoAlerts]
  else []

/-- One iteration of the record loop in StreamAlert.run: build a payload
from the raw record, map its source, and either skip it (unknown source),
dispatch it to the extractor matching its service, or log an info message
(recognized source with no matching service).  The state threads the last
payload bound by the loop, the accumulator and the effect trace. -/
def runStep (c : Collab)
    (st : Option Payload × List String × List Effect) (record : String) :
    Option Payload × List String × List Effect :=
  let p1 := map_source c (payload0 record)
  if p1.valid_source = false then (some p1, st.2.1, st.2.2)
  else if p1.service = "s3" then
    let r := s3_process c st.2.1 p1
    (some r.1, r.2.1, st.2.2 ++ r.2.2)
  else if p1.service = "kinesis" then
    let r := kinesis_process c st.2.1 p1
    (some r.1, r.2.1, st.2.2 ++ r.2.2)
  else if p1.service = "sns" then
    let r := sns_process c st.2.1 p1
    (some r.1, r.2.1, st.2.2 ++ r.2.2)
  else (some p1, st.2.1, st.2.2 ++ [Effect.infoUnsupportedService p1.service])

/-- The record loop of StreamAlert.run over the whole batch, starting from
no payload bound and the current accumulator. -/
def runLoop (c : Collab) (alerts0 : List String) (records : List String) :
    Option Payload × List String × List Effect :=
  records.foldl (runStep c) (none, alerts0, [])

/-- The mutable state of a StreamAlert instance: the constructor flag and
the alert accumulator. -/
structure StreamAlert where
  return_alerts : Bool
  alerts : List String
deriving DecidableEq, Repr

/-- Embeds StreamAlert.__init__: store the return_alerts option and start
with an empty accumulator. -/
def StreamAlert.init (return_alerts : Bool) : StreamAlert :=
  { return_alerts := return_alerts, alerts := [] }

/-- Embeds StreamAlert.run: log the record count, run the record loop,
then either return the accumulator (return_alerts set) or call
send_alerts with the environment and the payload variable left bound by
the loop.  When the loop never bound a payload (empty batch) that
reference raises a NameError, modelled as the error case. -/
def StreamAlert.run (c : Collab) (sa : StreamAlert) (env : Env)
    (records : List String) :
    Except Unit (StreamAlert × Option (List String) × List Effect) :=
  let e0 : List Effect := [Effect.debugNumRecords records.length]
  let r := runLoop c sa.alerts records
  let sa2 : StreamAlert := { sa with alerts := r.2.1 }
  if sa.return_alerts then Except.ok (sa2, some r.2.1, e0 ++ r.2.2)
  else
    match r.1 with
    | none => Except.error ()
    | some p => Except.ok (sa2, none, e0 ++ r.2.2 ++ send_alerts env r.2.1 p)

/-! Derived per-unit and per-record descriptions of the alert contributions
and effects, used to state the batch-level properties.  Each is a direct
reading of one branch of the handler, written per record so that the
batch-level theorems can state the accumulator as a flat concatenation. -/

/-- The alerts that one data unit contributes: the rule-engine result when
the unit classifies as valid, nothing otherwise. -/
def unitAlerts (c : Collab) (p : Payload) (data : String) : List String :=
  let p2 := classify_record c p data
  if p2.valid then c.rules p2 else []

/-- The effects that one data unit emits inside process_alerts: one
invalid-data error when classification fails, nothing otherwise. -/
def unitEffects (c : Collab) (p : Payload) (data : String) : List Effect :=
  let p2 := classify_record c p data
  if p2.valid then [] else [Effect.errorInvalidData p2 p.raw_record]

/-- The result of processing one archive line from a start-of-record
payload: right-strip the line, refresh the payload with the stripped data,
and run process_alerts on an empty accumulator. -/
def s3LineResult (c : Collab) (p : Payload) (line : String) :
    Payload × List String × List Effect :=
  let data := (rstrip line)
  process_alerts c [] (refresh_record p data) data

/-- The alerts one raw record contributes to the accumulator, by the
dispatch branch it takes; for an archive record, the concatenation of its
per-line contributions in file order. -/
def recordAlerts (c : Collab) (record : String) : List String :=
  let p1 := map_source c (payload0 record)
  if p1.valid_source = false then []
  else if p1.service = "s3" then
    ((c.preParseS3 record).map fun l =>
      unitAlerts c (refresh_record p1 (rstrip l)) (rstrip l)).flatten
  else if p1.service = "kinesis" then unitAlerts c p1 (c.preParseKinesis record)
  else if p1.service = "sns" then unitAlerts c p1 (c.preParseSns record)
  else []

/-! Concrete fixtures used to evaluate the definitions on closed inputs. -/

/-- A concrete collaborator bundle: the raw record determines the mapped
service, every archive record holds three lines of which the middle one
fails classification, and the rule engine returns the current data unit
as a single alert. -/
def cEx : Collab where
  preParseKinesis r := r ++ ":data"
  preParseS3 _ := ["va ", "bad", "vb"]
  preParseSns r := r
  mapSource r :=
    if r = "k1" then ("kinesis", true)
    else if r = "slog" then ("s3", true)
    else if r = "n1" then ("sns", true)
    else if r = "odd" then ("weird", true)
    else ("", false)
  classify _ d := d != "bad"
  rules p :=
    match p.record_data with
    | some d => [d]
    | none => [p.raw_record]

/-- Development-stage environment descriptor. -/
def envDev : Env := { lambda_alias := "development" }

/-- Production-stage environment descriptor. -/
def envProd : Env := { lambda_alias := "production" }

/-- The effects one raw record emits during the batch loop, by the
dispatch branch it takes. -/
def recordEffects (c : Collab) (record : String) : List Effect :=
  let p1 := map_source c (payload0 record)
  if p1.valid_source = false then []
  else if p1.service = "s3" then
    ((c.preParseS3 record).map fun l =>
      unitEffects c (refresh_record p1 (rstrip l)) (rstrip l)).flatten
  else if p1.service = "kinesis" then unitEffects c p1 (c.preParseKinesis record)
  else if p1.service = "sns" then unitEffects c p1 (c.preParseSns record)
  else [Effect.infoUnsupportedService p1.service]

/-- The payload value left in the loop variable after one raw record is
processed. -/
def recordLastPayload (c : Collab) (record : String) : Payload :=
  let p1 := map_source c (payload0 record)
  if p1.valid_source = false then p1
  else if p1.service = "s3" then
    (c.preParseS3 record).foldl (fun _ l => (s3LineResult c p1 l).1) p1
  else if p1.service = "kinesis" then
    classify_record c p1 (c.preParseKinesis record)
  else if p1.service = "sns" then
    classify_record c p1 (c.preParseSns record)
  else p1

/-! Helper lemmas about process_alerts and the archive line loop. -/

/-- process_alerts leaves the raw record, service and valid-source fields
of the payload untouched and stores the freshly computed validity. -/
lemma process_alerts_fst (c : Collab) (a : List String) (p : Payload)
    (d : String) : (process_alerts c a p d).1 = classify_record c p d := by
  unfold process_alerts
  by_cases h : (classify_record c p d).valid <;> simp [h]
  by_cases h2 : c.rules (classify_record c p d) = [] <;> simp [h2]

/-- The accumulator after process_alerts is the incoming accumulator
followed by the contribution of the data unit. -/
lemma process_alerts_alerts (c : Collab) (a : List String) (p : Payload)
    (d : String) : (process_alerts c a p d).2.1 = a ++ unitAlerts c p d := by
  unfold process_alerts unitAlerts
  by_cases h : (classify_record c p d).valid <;> simp [h]
  by_cases h2 : c.rules (classify_record c p d) = [] <;> simp [h2]

/-- The effects emitted by process_alerts are exactly the per-unit
effects. -/
lemma process_alerts_effects (c : Collab) (a : List String) (p : Payload)
    (d : String) : (process_alerts c a p d).2.2 = unitEffects c p d := by
  unfold process_alerts unitEffects
  by_cases h : (classify_record c p d).valid <;> simp [h]
  by_cases h2 : c.rules (classify_record c p d) = [] <;> simp [h2]

/-- Overwriting the valid flag and the data unit of a payload before a
line is processed does not change the outcome of that line: refresh and
classification recompute both fields from the current line alone. -/
lemma s3LineResult_stable (c : Collab) (p : Payload) (v : Bool)
    (rd : Option String) (line : String) :
    s3LineResult c { p with valid := v, record_data := rd } line =
      s3LineResult c p line := by
  unfold s3LineResult process_alerts classify_record refresh_record
  rfl

/-- Shape of the payload a line leaves behind: the start-of-record payload
with only the data unit and the freshly computed validity replaced. -/
lemma s3LineResult_fst (c : Collab) (p : Payload) (line : String) :
    (s3LineResult c p line).1 =
      { p with record_data := some (rstrip line),
               valid := c.classify p.service (rstrip line) } := by
  unfold s3LineResult
  rw [process_alerts_fst]
  rfl

/-- One step of the archive line loop, rewritten through the per-line
result: the state payload fields that the step overwrites do not matter,
the accumulator extends by the contribution of the line, and the trace
extends by the effects of the line. -/
lemma s3Step_eq (c : Collab) (p : Payload) (v : Bool) (rd : Option String)
    (a : List String) (e : List Effect) (line : String) :
    s3Step c ({ p with valid := v, record_data := rd }, a, e) line =
      ((s3LineResult c p line).1, a ++ (s3LineResult c p line).2.1,
        e ++ (s3LineResult c p line).2.2) := by
  have hd : s3Step c ({ p with valid := v, record_data := rd }, a, e) line =
      ((process_alerts c a
          (refresh_record { p with valid := v, record_data := rd }
            (rstrip line)) (rstrip line)).1,
        (process_alerts c a
          (refresh_record { p with valid := v, record_data := rd }
            (rstrip line)) (rstrip line)).2.1,
        e ++ (process_alerts c a
          (refresh_record { p with valid := v, record_data := rd }
            (rstrip line)) (rstrip line)).2.2) := rfl
  have h1 : s3LineResult c p line =
      process_alerts c [] (refresh_record p (rstrip line))
        (rstrip line) := rfl
  rw [hd, process_alerts_fst, process_alerts_alerts, process_alerts_effects,
    h1, process_alerts_fst, process_alerts_alerts, process_alerts_effects]
  rfl

/-- The whole archive line loop, from any payload that agrees with the
start-of-record payload on the fields the loop never writes: the final
payload is the fold of the per-line payloads, the accumulator extends by
the per-line contributions in file order, and the trace extends by the
per-line effects in file order. -/
lemma s3_fold (c : Collab) (p : Payload) (lines : List String) :
    ∀ (v : Bool) (rd : Option String) (a : List String) (e : List Effect),
      lines.foldl (s3Step c) ({ p with valid := v, record_data := rd }, a, e) =
        (lines.foldl (fun _ l => (s3LineResult c p l).1)
            { p with valid := v, record_data := rd },
          a ++ (lines.map fun l => (s3LineResult c p l).2.1).flatten,
          e ++ (lines.map fun l => (s3LineResult c p l).2.2).flatten) := by
  induction lines with
  | nil => intro v rd a e; simp
  | cons l ls ih =>
    intro v rd a e
    rw [List.foldl_cons, s3Step_eq, s3LineResult_fst, ih]
    simp [s3LineResult_fst]

/-- s3_process in terms of the per-line results. -/
lemma s3_process_eq (c : Collab) (alerts : List String) (p : Payload) :
    s3_process c alerts p =
      ((c.preParseS3 p.raw_record).foldl
          (fun _ l => (s3LineResult c p l).1) p,
        alerts ++ ((c.preParseS3 p.raw_record).map
          fun l => (s3LineResult c p l).2.1).flatten,
        ((c.preParseS3 p.raw_record).map
          fun l => (s3LineResult c p l).2.2).flatten) := by
  have h := s3_fold c p (c.preParseS3 p.raw_record) p.valid p.record_data
    alerts []
  simpa [s3_process] using h

/-- The alert contribution of one archive line is the per-unit
contribution of the refreshed payload and the stripped data. -/
lemma s3LineResult_alerts (c : Collab) (p : Payload) (line : String) :
    (s3LineResult c p line).2.1 =
      unitAlerts c (refresh_record p (rstrip line)) (rstrip line) := by
  have h1 : s3LineResult c p line =
      process_alerts c [] (refresh_record p (rstrip line))
        (rstrip line) := rfl
  rw [h1, process_alerts_alerts]
  simp

/-- The effects of one archive line are the per-unit effects of the
refreshed payload and the stripped data. -/
lemma s3LineResult_effects (c : Collab) (p : Payload) (line : String) :
    (s3LineResult c p line).2.2 =
      unitEffects c (refresh_record p (rstrip line)) (rstrip line) := by
  have h1 : s3LineResult c p line =
      process_alerts c [] (refresh_record p (rstrip line))
        (rstrip line) := rfl
  rw [h1, process_alerts_effects]

/-- Source mapping leaves the raw record of the payload unchanged. -/
lemma map_source_raw (c : Collab) (r : String) :
    (map_source c (payload0 r)).raw_record = r := rfl

/-- One step of the batch loop, rewritten through the per-record
descriptions: the loop variable is bound to the per-record last payload,
the accumulator extends by the per-record contribution, and the trace
extends by the per-record effects. -/
lemma runStep_eq (c : Collab) (st : Option Payload × List String × List Effect)
    (record : String) :
    runStep c st record =
      (some (recordLastPayload c record), st.2.1 ++ recordAlerts c record,
        st.2.2 ++ recordEffects c record) := by
  unfold runStep recordLastPayload recordAlerts recordEffects
  by_cases h0 : (map_source c (payload0 record)).valid_source = false
  · simp [h0]
  · by_cases h1 : (map_source c (payload0 record)).service = "s3"
    · simp only [h0, h1, if_true, if_false, Bool.false_eq_true]
      rw [s3_process_eq]
      simp [s3LineResult_alerts, s3LineResult_effects, map_source_raw]
    · by_cases h2 : (map_source c (payload0 record)).service = "kinesis"
      · simp only [h0, h1, h2, if_true, if_false, Bool.false_eq_true]
        unfold kinesis_process
        rw [process_alerts_alerts, process_alerts_effects, process_alerts_fst]
        simp [map_source_raw]
      · by_cases h3 : (map_source c (payload0 record)).service = "sns"
        · simp only [h0, h1, h2, h3, if_true, if_false, Bool.false_eq_true]
          unfold sns_process
          rw [process_alerts_alerts, process_alerts_effects,
            process_alerts_fst]
          simp [map_source_raw]
        · simp [h0, h1, h2, h3]

/-- The whole batch loop from any starting state: the loop variable holds
the last per-record payload, the accumulator extends by the per-record
contributions in batch order, and the trace extends by the per-record
effects in batch order. -/
lemma runLoop_fold (c : Collab) (records : List String) :
    ∀ (st : Option Payload × List String × List Effect),
      records.foldl (runStep c) st =
        (records.foldl (fun _ r => some (recordLastPayload c r)) st.1,
          st.2.1 ++ (records.map (recordAlerts c)).flatten,
          st.2.2 ++ (records.map (recordEffects c)).flatten) := by
  induction records with
  | nil => intro st; simp
  | cons r rs ih =>
    intro st
    rw [List.foldl_cons, runStep_eq, ih]
    simp

/-- runLoop in terms of the per-record descriptions. -/
lemma runLoop_eq (c : Collab) (alerts0 : List String)
    (records : List String) :
    runLoop c alerts0 records =
      (records.foldl (fun _ r => some (recordLastPayload c r)) none,
        alerts0 ++ (records.map (recordAlerts c)).flatten,
        (records.map (recordEffects c)).flatten) := by
  have h := runLoop_fold c records (none, alerts0, [])
  simpa [runLoop] using h

/-- run unfolded on the flag-set branch. -/
lemma run_flag_set (c : Collab) (sa : StreamAlert) (env : Env)
    (records : List String) (h : sa.return_alerts = true) :
    StreamAlert.run c sa env records =
      Except.ok ({ sa with alerts := (runLoop c sa.alerts records).2.1 },
        some (runLoop c sa.alerts records).2.1,
        Effect.debugNumRecords records.length ::
          (runLoop c sa.alerts records).2.2) := by
  unfold StreamAlert.run
  rw [h]
  simp

/-- run unfolded on the flag-unset branch when the loop bound a payload. -/
lemma run_flag_unset (c : Collab) (sa : StreamAlert) (env : Env)
    (records : List String) (p : Payload) (h : sa.return_alerts = false)
    (hp : (runLoop c sa.alerts records).1 = some p) :
    StreamAlert.run c sa env records =
      Except.ok ({ sa with alerts := (runLoop c sa.alerts records).2.1 },
        none,
        Effect.debugNumRecords records.length ::
          ((runLoop c sa.alerts records).2.2 ++
            send_alerts env (runLoop c sa.alerts records).2.1 p)) := by
  unfold StreamAlert.run
  rw [h]
  simp only [Bool.false_eq_true, if_false, hp]
  simp [List.append_assoc]

/-- run errors (NameError on the unbound loop variable) when the flag is
unset and the loop never bound a payload. -/
lemma run_flag_unset_none (c : Collab) (sa : StreamAlert) (env : Env)
    (records : List String) (h : sa.return_alerts = false)
    (hp : (runLoop c sa.alerts records).1 = none) :
    StreamAlert.run c sa env records = Except.error () := by
  unfold StreamAlert.run
  rw [h]
  simp only [Bool.false_eq_true, if_false, hp]

/-- process_alerts as an explicit triple: the classified payload, the
extended accumulator, and the per-unit effects. -/
lemma process_alerts_eq (c : Collab) (a : List String) (p : Payload)
    (d : String) :
    process_alerts c a p d =
      (classify_record c p d, a ++ unitAlerts c p d, unitEffects c p d) := by
  unfold process_alerts unitAlerts unitEffects
  by_cases h : (classify_record c p d).valid
  · simp only [h, if_true]
    by_cases h2 : c.rules (classify_record c p d) = [] <;> simp [h2]
  · simp [h]

/-! Claim theorems. -/

/-- C1: the claim asks that an invocation on an empty batch (and hence
with no payload object available at the Delivery Decision) complete as a
defined no-op.  The code violates this: with the return-alerts flag
unset, run reaches the send_alerts call with the loop variable never
bound, which raises a NameError; the embedding returns the error outcome
instead of a no-op, for every collaborator bundle and environment. -/
theorem run_empty_batch_raises (c : Collab) (env : Env) :
    StreamAlert.run c (StreamAlert.init false) env [] = Except.error () := rfl

/-- C2: after the batch loop of run processes all records, the alert
accumulator equals the incoming accumulator followed by the
concatenation, in record order and (inside an archive record) in line
order, of the rule-evaluation results of the processed data units;
recordAlerts lists exactly those per-record contributions, with empty
results vanishing in the concatenation. -/
theorem runLoop_alerts_concat (c : Collab) (alerts0 : List String)
    (records : List String) :
    (runLoop c alerts0 records).2.1 =
      alerts0 ++ (records.map (recordAlerts c)).flatten := by
  rw [runLoop_eq]

/-- C3: for an archive record whose object holds N lines, the line loop
runs the Alert Pipeline once per line in file order: the accumulator and
the effect trace are the concatenations of the N per-line results, the
final payload is the fold of the per-line payloads, and each per-line
result is computed from the start-of-record payload and that line alone
(s3LineResult right-strips the line, refreshes the payload with the
stripped data and reclassifies), so validity carries nothing over from
earlier lines. -/
theorem s3_process_per_line (c : Collab) (alerts : List String)
    (p1 : Payload) :
    (s3_process c alerts p1).2.1 =
        alerts ++ ((c.preParseS3 p1.raw_record).map
          fun l => (s3LineResult c p1 l).2.1).flatten
  ∧ (s3_process c alerts p1).2.2 =
        ((c.preParseS3 p1.raw_record).map
          fun l => (s3LineResult c p1 l).2.2).flatten
  ∧ (s3_process c alerts p1).1 =
        (c.preParseS3 p1.raw_record).foldl
          (fun _ l => (s3LineResult c p1 l).1) p1
  ∧ ∀ l, (s3LineResult c p1 l).1 =
        { p1 with record_data := some (rstrip l),
                  valid := c.classify p1.service (rstrip l) } := by
  rw [s3_process_eq]
  exact ⟨rfl, rfl, rfl, fun l => s3LineResult_fst c p1 l⟩

/-- C4: a raw record whose source is not recognized by configuration is
skipped before any extractor runs: the loop step leaves the accumulator
and the effect trace untouched and only rebinds the loop variable; the
right-hand side mentions no pre-parser, and the step gives the same
result under any collaborator bundle that maps sources the same way, so
no extraction call is made. -/
theorem skip_before_extract (c : Collab)
    (st : Option Payload × List String × List Effect) (record : String)
    (h : (c.mapSource record).2 = false) :
    runStep c st record =
        (some (map_source c (payload0 record)), st.2.1, st.2.2)
  ∧ ∀ c2 : Collab, c2.mapSource = c.mapSource →
      runStep c2 st record =
        (some (map_source c (payload0 record)), st.2.1, st.2.2) := by
  have hv : (map_source c (payload0 record)).valid_source = false := h
  constructor
  · unfold runStep
    simp [hv]
  · intro c2 hc2
    have hv2 : (map_source c2 (payload0 record)).valid_source = false := by
      show (c2.mapSource record).2 = false
      rw [hc2]
      exact h
    have hm : map_source c2 (payload0 record) =
        map_source c (payload0 record) := by
      unfold map_source
      rw [hc2]
    unfold runStep
    simp [hv2, hm, hv]

/-- Witness for C4 at a concrete skipped record and a non-trivial
starting state, including the pre-parser independence conjunct applied
to a bundle with different pre-parsers. -/
theorem skip_before_extract_witness :
    runStep cEx (none, ["a0"], [Effect.debugNoAlerts]) "junk" =
        (some (map_source cEx (payload0 "junk")), ["a0"],
          [Effect.debugNoAlerts])
  ∧ runStep { cEx with preParseS3 := fun _ => ["other"] }
        (none, ["a0"], [Effect.debugNoAlerts]) "junk" =
        (some (map_source cEx (payload0 "junk")), ["a0"],
          [Effect.debugNoAlerts]) :=
  ⟨(skip_before_extract cEx (none, ["a0"], [Effect.debugNoAlerts]) "junk"
      (by decide)).1,
    (skip_before_extract cEx (none, ["a0"], [Effect.debugNoAlerts]) "junk"
      (by decide)).2 { cEx with preParseS3 := fun _ => ["other"] } rfl⟩

/-- C5: with a non-empty accumulator at delivery time, the development
alias logs the alert count and a dump of all accumulated alerts and makes
no sink call, while any other alias makes exactly one sink call carrying
the full accumulator and the environment descriptor. -/
theorem send_alerts_nonempty_delivery (env : Env) (alerts : List String)
    (p : Payload) (h : alerts ≠ []) :
    (env.lambda_alias = "development" →
      send_alerts env alerts p =
        [Effect.infoAlertsTriggered alerts.length,
          Effect.infoAlertsDump alerts])
  ∧ (env.lambda_alias ≠ "development" →
      send_alerts env alerts p = [Effect.sinkCall alerts env]) := by
  constructor <;> intro hd <;> simp [send_alerts, h, hd]

/-- Witness for C5: one alert delivered under each alias. -/
theorem send_alerts_nonempty_delivery_witness :
    send_alerts envDev ["a1"] (payload0 "r") =
        [Effect.infoAlertsTriggered 1, Effect.infoAlertsDump ["a1"]]
  ∧ send_alerts envProd ["a1"] (payload0 "r") =
        [Effect.sinkCall ["a1"] envProd] :=
  ⟨(send_alerts_nonempty_delivery envDev ["a1"] (payload0 "r")
      (by decide)).1 (by decide),
    (send_alerts_nonempty_delivery envProd ["a1"] (payload0 "r")
      (by decide)).2 (by decide)⟩

/-- C6: the alert accumulator is batch-scoped: construction starts it
empty, so at the start of a run invocation on a freshly constructed
Dispatcher it holds no alert from any previous invocation, and whenever
that invocation returns normally the accumulator state holds exactly the
per-record contributions of this batch. -/
theorem alerts_batch_scoped (ra : Bool) (c : Collab) (env : Env)
    (records : List String) :
    (StreamAlert.init ra).alerts = []
  ∧ ∀ out, StreamAlert.run c (StreamAlert.init ra) env records =
        Except.ok out →
      out.1.alerts = (records.map (recordAlerts c)).flatten := by
  refine ⟨rfl, fun out hout => ?_⟩
  by_cases hra : (StreamAlert.init ra).return_alerts = true
  · rw [run_flag_set c (StreamAlert.init ra) env records hra] at hout
    injection hout with h2
    rw [← h2]
    simp [runLoop_eq, StreamAlert.init]
  · have hra2 : (StreamAlert.init ra).return_alerts = false := by
      simpa using hra
    cases hp : (runLoop c (StreamAlert.init ra).alerts records).1 with
    | none =>
      rw [run_flag_unset_none c _ env records hra2 hp] at hout
      cases hout
    | some p =>
      rw [run_flag_unset c _ env records p hra2 hp] at hout
      injection hout with h2
      rw [← h2]
      simp [runLoop_eq, StreamAlert.init]

/-- Witness for C6: one archive record whose three lines yield two alerts
(the middle line fails classification), on a freshly constructed
instance with the return-alerts flag set. -/
theorem alerts_batch_scoped_witness :
    ({ return_alerts := true, alerts := ["va", "vb"] } : StreamAlert).alerts =
      (["slog"].map (recordAlerts cEx)).flatten :=
  (alerts_batch_scoped true cEx envProd ["slog"]).2
    ({ return_alerts := true, alerts := ["va", "vb"] }, some ["va", "vb"],
      [Effect.debugNumRecords 1,
        Effect.errorInvalidData
          { raw_record := "slog", service := "s3", valid_source := true,
            valid := false, record_data := some "bad" } "slog"])
    rfl

/-- C7: with the return-alerts flag set, run returns the accumulated
alert sequence after the whole batch and its effect trace is exactly the
loop trace (no Delivery Decision); with the flag unset and a payload
bound by the loop, run returns nothing and its trace is the loop trace
followed by exactly one send_alerts tail computed from the environment
descriptor and the last payload the loop observed. -/
theorem run_return_or_deliver (c : Collab) (env : Env)
    (records : List String) (sa : StreamAlert) :
    (sa.return_alerts = true →
      StreamAlert.run c sa env records =
        Except.ok ({ sa with alerts := (runLoop c sa.alerts records).2.1 },
          some (runLoop c sa.alerts records).2.1,
          Effect.debugNumRecords records.length ::
            (runLoop c sa.alerts records).2.2))
  ∧ ∀ p : Payload, sa.return_alerts = false →
      (runLoop c sa.alerts records).1 = some p →
      StreamAlert.run c sa env records =
        Except.ok ({ sa with alerts := (runLoop c sa.alerts records).2.1 },
          none,
          Effect.debugNumRecords records.length ::
            ((runLoop c sa.alerts records).2.2 ++
              send_alerts env (runLoop c sa.alerts records).2.1 p)) :=
  ⟨fun h => run_flag_set c sa env records h,
    fun p h hp => run_flag_unset c sa env records p h hp⟩

/-- Witness for C7: one event-stream record that yields one alert, once
with the flag set (alerts returned, no sink call) and once with the flag
unset under the production alias (one sink call). -/
theorem run_return_or_deliver_witness :
    StreamAlert.run cEx { return_alerts := true, alerts := [] } envProd
        ["k1"] =
      Except.ok ({ return_alerts := true, alerts := ["k1"] }, some ["k1"],
        [Effect.debugNumRecords 1])
  ∧ StreamAlert.run cEx { return_alerts := false, alerts := [] } envProd
        ["k1"] =
      Except.ok ({ return_alerts := false, alerts := ["k1"] }, none,
        [Effect.debugNumRecords 1, Effect.sinkCall ["k1"] envProd]) :=
  ⟨(run_return_or_deliver cEx envProd ["k1"]
      { return_alerts := true, alerts := [] }).1 rfl,
    (run_return_or_deliver cEx envProd ["k1"]
      { return_alerts := false, alerts := [] }).2
      { raw_record := "k1", service := "kinesis", valid_source := true,
        valid := true, record_data := none } rfl rfl⟩

/-- C8: a data unit that classification marks invalid emits exactly one
error-level effect carrying the classified payload and the original raw
record, leaves the accumulator unchanged, and does not invoke the rule
engine: replacing the rules oracle by any other leaves the outcome
untouched. -/
theorem process_alerts_invalid_unit (c : Collab) (alerts : List String)
    (p : Payload) (data : String)
    (h : c.classify p.service data = false) :
    process_alerts c alerts p data =
        (classify_record c p data, alerts,
          [Effect.errorInvalidData (classify_record c p data) p.raw_record])
  ∧ ∀ rules2 : Payload → List String,
      process_alerts { c with rules := rules2 } alerts p data =
        process_alerts c alerts p data := by
  have hv : (classify_record c p data).valid = false := h
  constructor
  · rw [process_alerts_eq]
    simp [unitAlerts, unitEffects, hv]
  · intro rules2
    have hv2 :
        (classify_record { c with rules := rules2 } p data).valid = false := h
    rw [process_alerts_eq, process_alerts_eq]
    simp [unitAlerts, unitEffects, hv, hv2]
    rfl

/-- Witness for C8: a data unit the concrete classifier rejects, against
a non-empty incoming accumulator. -/
theorem process_alerts_invalid_unit_witness :
    process_alerts cEx ["a0"] (payload0 "r") "bad" =
      ({ raw_record := "r", service := "", valid_source := false,
          valid := false, record_data := none }, ["a0"],
        [Effect.errorInvalidData
          { raw_record := "r", service := "", valid_source := false,
            valid := false, record_data := none } "r"]) :=
  (process_alerts_invalid_unit cEx ["a0"] (payload0 "r") "bad" rfl).1

/-- C9: with an empty accumulator the Delivery Decision only emits the
debug no-alerts trace when the last payload was valid, and does nothing
at all when it was invalid; it is never entered with an absent payload,
since run errors before the call in that case. -/
theorem send_alerts_empty_accumulator (env : Env) (p : Payload) :
    (p.valid = true → send_alerts env [] p = [Effect.debugNoAlerts])
  ∧ (p.valid = false → send_alerts env [] p = []) := by
  constructor <;> intro h <;> simp [send_alerts, h]

/-- Witness for C9: a valid and an invalid last payload under the
production alias. -/
theorem send_alerts_empty_accumulator_witness :
    send_alerts envProd []
        { raw_record := "r", service := "", valid_source := false,
          valid := true, record_data := none } = [Effect.debugNoAlerts]
  ∧ send_alerts envProd [] (payload0 "r") = [] :=
  ⟨(send_alerts_empty_accumulator envProd
      { raw_record := "r", service := "", valid_source := false,
        valid := true, record_data := none }).1 rfl,
    (send_alerts_empty_accumulator envProd (payload0 "r")).2 rfl⟩

/-- C10: when the last record of a non-empty batch is skipped by the
Classification Gate and the flag is unset, the Delivery Decision still
receives a payload value, namely the mapped but never classified payload
of that skipped record, whose valid flag still holds its construction
value false; it does not receive an absent value. -/
theorem delivery_gets_last_skipped_payload (c : Collab) (env : Env)
    (records : List String) (r : String)
    (h : (c.mapSource r).2 = false) :
    (map_source c (payload0 r)).valid = false
  ∧ StreamAlert.run c (StreamAlert.init false) env (records ++ [r]) =
      Except.ok ({ return_alerts := false,
                   alerts := (runLoop c [] (records ++ [r])).2.1 },
        none,
        Effect.debugNumRecords (records.length + 1) ::
          ((runLoop c [] (records ++ [r])).2.2 ++
            send_alerts env (runLoop c [] (records ++ [r])).2.1
              (map_source c (payload0 r)))) := by
  refine ⟨rfl, ?_⟩
  have hv : (map_source c (payload0 r)).valid_source = false := h
  have hp : (runLoop c [] (records ++ [r])).1 =
      some (map_source c (payload0 r)) := by
    rw [runLoop_eq]
    show (records ++ [r]).foldl (fun _ x => some (recordLastPayload c x))
        none = _
    rw [List.foldl_append]
    show some (recordLastPayload c r) = _
    unfold recordLastPayload
    simp [hv]
  have hrun := run_flag_unset c (StreamAlert.init false) env
    (records ++ [r]) (map_source c (payload0 r)) rfl hp
  simpa [StreamAlert.init] using hrun

/-- Witness for C10: a batch of one alert-producing record followed by
one record with an unrecognized source; delivery runs with the mapped
payload of the skipped record and one production sink call occurs. -/
theorem delivery_gets_last_skipped_payload_witness :
    (map_source cEx (payload0 "junk")).valid = false
  ∧ StreamAlert.run cEx (StreamAlert.init false) envProd ["k1", "junk"] =
      Except.ok ({ return_alerts := false, alerts := ["k1"] }, none,
        [Effect.debugNumRecords 2, Effect.sinkCall ["k1"] envProd]) :=
  delivery_gets_last_skipped_payload cEx envProd ["k1"] "junk" rfl

end StreamAlertModel
